import Mathlib

/-!
Verification of the metforce multi-source time-series composition engine.

Timestamps are modelled as integers, numeric cells as rationals (reals where
the code computes with transcendental functions).  A pandas Series/column is a
function from timestamp to an optional value, where none models NaN.  Pandas
KeyError / IndexError / ValueError exceptions are modelled with Except.
-/

/-- A station table as read from the met station export: a timestamp index,
a set of named columns, and a cell lookup.  none models a NaN cell. -/
structure StationTable where
  index : List Int
  cols : List String
  data : String → Int → Option ℚ

/-- A dataframe produced by a source strategy or by the merge: a timestamp
index plus an ordered association list of named columns. -/
structure DF where
  index : List Int
  cols : List (String × (Int → Option ℚ))

/-- Value of column c at timestamp t, none when the column is absent. -/
def DF.get (df : DF) (c : String) (t : Int) : Option ℚ :=
  match List.lookup c df.cols with
  | some f => f t
  | none => none

/-- One step of the merge loop of merge_met_dataframes: look up the source
dataframe (KeyError when the source is unknown), look up the parameter column
(KeyError when absent), and assign it to the merged frame.  Pandas column
assignment aligns on the index of the assigned series: a merged row whose
timestamp is missing from the source index receives NaN. -/
def mergeStep (dataframes : List (String × DF)) (acc : DF) (ps : String × String) :
    Except String DF :=
  match List.lookup ps.2 dataframes with
  | none => .error ("KeyError: source " ++ ps.2)
  | some df =>
    match List.lookup ps.1 df.cols with
    | none => .error ("KeyError: parameter " ++ ps.1)
    | some series =>
      .ok { acc with cols := acc.cols ++ [(ps.1, fun t => if t ∈ df.index then series t else none)] }

/-- merge_met_dataframes (merge.py lines 36-56).  The merged frame is created
with the index of the FIRST dataframe in the mapping; the Python
list(dataframes.values())[0] raises IndexError on an empty mapping.
parameters is the name-to-source mapping read from parameters[p]["source"]. -/
def merge_met_dataframes (parameters : List (String × String))
    (dataframes : List (String × DF)) : Except String DF :=
  match dataframes with
  | [] => .error "IndexError: empty dataframes"
  | (_, first) :: _ =>
    parameters.foldlM (mergeStep dataframes) { index := first.index, cols := [] }

/-- add_unused_columns (util.py lines 44-56): nine constant synthetic columns. -/
def add_unused_columns (df : DF) : DF :=
  { df with cols := df.cols ++
      [("visibility", fun _ => some (-(99/10))),
       ("aerosol", fun _ => some 10),
       ("cloud_cover_1", fun _ => some 0),
       ("cloud_cover_2", fun _ => some 0),
       ("cloud_cover_3", fun _ => some 0),
       ("cloud_cover_4", fun _ => some 0),
       ("cloud_cover_5", fun _ => some 0),
       ("cloud_cover_6", fun _ => some 0),
       ("cloud_cover_7", fun _ => some 0)] }

/-- add_date_columns (util.py lines 58-65).  The strftime calendar fields are
external pure functions of the timestamp, passed in as dayF, hourF, minF. -/
def add_date_columns (dayF hourF minF : Int → ℚ) (df : DF) : DF :=
  { df with cols := df.cols ++
      [("day", fun t => some (dayF t)),
       ("hour", fun t => some (hourF t)),
       ("minute", fun t => some (minF t))] }

/-- Canonical display order: the insertion order of default_col_names in
defaults.py. -/
def default_col_order : List String :=
  ["day", "hour", "minute", "pressure", "temperature", "relative_humidity",
   "wind_speed", "wind_direction", "visibility", "aerosol", "precipitation",
   "cloud_cover_1", "cloud_cover_2", "cloud_cover_3", "cloud_cover_4",
   "cloud_cover_5", "cloud_cover_6", "cloud_cover_7", "global_shortwave",
   "direct_shortwave", "diffuse_shortwave", "downwelling_lwir", "zenith",
   "azimuth"]

/-- Column selection met_df[list(default_col_names.keys())] (merge.py line 28):
keeps the index, reorders the columns, KeyError when a column is missing. -/
def reorder_columns (df : DF) : Except String DF :=
  if default_col_order.all (fun c => (List.lookup c df.cols).isSome) then
    .ok { index := df.index,
          cols := default_col_order.map (fun c => (c, fun t => df.get c t)) }
  else .error "KeyError: reorder"

/-- merge_and_prepare_for_output (merge.py lines 13-33): drop the None
dataframes, merge, append synthetic and calendar columns, reorder. -/
def merge_and_prepare_for_output (parameters : List (String × String))
    (dataframes : List (String × Option DF)) (dayF hourF minF : Int → ℚ) :
    Except String DF := do
  let dfs := dataframes.filterMap (fun p => p.2.map (fun d => (p.1, d)))
  let met_df ← merge_met_dataframes parameters dfs
  let met_df := add_unused_columns met_df
  let met_df := add_date_columns dayF hourF minF met_df
  reorder_columns met_df

lemma mergeStep_index (dataframes : List (String × DF)) (acc : DF)
    (ps : String × String) (m : DF) (h : mergeStep dataframes acc ps = .ok m) :
    m.index = acc.index := by
  unfold mergeStep at h
  cases h1 : List.lookup ps.2 dataframes with
  | none => simp [h1] at h
  | some df =>
    cases h2 : List.lookup ps.1 df.cols with
    | none => simp [h1, h2] at h
    | some series =>
      simp [h1, h2] at h
      subst h
      rfl

lemma merge_fold_index (dataframes : List (String × DF)) :
    ∀ (parameters : List (String × String)) (acc m : DF),
      parameters.foldlM (mergeStep dataframes) acc = .ok m → m.index = acc.index := by
  intro parameters
  induction parameters with
  | nil =>
    intro acc m h
    rw [List.foldlM_nil] at h
    simp only [pure, Except.pure, Except.ok.injEq] at h
    subst h; rfl
  | cons p rest ih =>
    intro acc m h
    rw [List.foldlM_cons] at h
    cases hs : mergeStep dataframes acc p with
    | error e =>
      rw [hs] at h
      simp [Bind.bind, Except.bind] at h
    | ok acc2 =>
      rw [hs] at h
      simp only [Bind.bind, Except.bind] at h
      have h2 := ih acc2 m h
      rw [h2, mergeStep_index dataframes acc p acc2 hs]

lemma reorder_columns_index (df m : DF) (h : reorder_columns df = .ok m) :
    m.index = df.index := by
  unfold reorder_columns at h
  by_cases hc : default_col_order.all (fun c => (List.lookup c df.cols).isSome)
  · rw [if_pos hc] at h
    cases h; rfl
  · rw [if_neg hc] at h
    cases h

lemma filterMap_some_pairs (l : List (String × DF)) :
    (l.map (fun p => (p.1, some p.2))).filterMap
        (fun p => p.2.map (fun d => (p.1, d))) = l := by
  induction l with
  | nil => rfl
  | cons h t ih => simp [ih]

/-- C1: for every non-empty OutputGrid and every set of source tables produced
by a composition run (every strategy builds its table on the full grid index:
build_metstation_df and the global and pvlib frames are constructed with
index = date_range, and build_grib_df indexes the sorted fetch dates, which
equal the full grid whenever a grib parameter is requested), the merged table
returned by merge_met_dataframes, and hence by merge_and_prepare_for_output,
has exactly one row per grid timestamp: its row count equals the grid length,
with no duplicate and no missing timestamps, regardless of which source
tables are present or which one appears first in the dataframes mapping. -/
theorem merge_preserves_output_grid_rows
    (grid : List Int) (parameters : List (String × String))
    (dataframes : List (String × DF))
    (_hgrid : grid ≠ [])
    (hne : dataframes ≠ [])
    (hidx : ∀ p ∈ dataframes, (p.2 : DF).index = grid) :
    (∀ m, merge_met_dataframes parameters dataframes = .ok m →
        m.index = grid ∧ m.index.length = grid.length ∧
        (grid.Nodup → m.index.Nodup) ∧ (∀ t, t ∈ m.index ↔ t ∈ grid)) ∧
    (∀ dayF hourF minF m,
        merge_and_prepare_for_output parameters
            (dataframes.map (fun p => (p.1, some p.2))) dayF hourF minF = .ok m →
          m.index = grid) := by
  have key : ∀ m, merge_met_dataframes parameters dataframes = .ok m →
      m.index = grid := by
    intro m hm
    cases dataframes with
    | nil => exact absurd rfl hne
    | cons hd tl =>
      unfold merge_met_dataframes at hm
      have h1 := merge_fold_index (hd :: tl) parameters _ m hm
      have h2 := hidx hd (List.mem_cons_self hd tl)
      simpa [h2] using h1
  constructor
  · intro m hm
    have h := key m hm
    exact ⟨h, by rw [h], fun hnd => h ▸ hnd, fun t => by rw [h]⟩
  · intro dayF hourF minF m hm
    unfold merge_and_prepare_for_output at hm
    rw [filterMap_some_pairs] at hm
    cases hmm : merge_met_dataframes parameters dataframes with
    | error e =>
      simp [hmm, Bind.bind, Except.bind] at hm
    | ok d =>
      simp only [hmm, Bind.bind, Except.bind] at hm
      have h3 := reorder_columns_index _ _ hm
      have h4 : (add_date_columns dayF hourF minF (add_unused_columns d)).index
          = d.index := rfl
      rw [h3, h4, key d hmm]

/-- Concrete station frame for the C1 witness. -/
def c1DF : DF := ⟨[0, 1], [("temperature", fun _ => some 1)]⟩

/-- Concrete merged frame for the C1 witness: the merge result at c1DF. -/
def c1Merged : DF :=
  ⟨[0, 1], [("temperature", fun t => if t ∈ ([0, 1] : List Int)
      then (fun _ => (some 1 : Option ℚ)) t else none)]⟩

/-- Witness for C1 at a concrete grid, parameter map and dataframes mapping. -/
theorem merge_preserves_output_grid_rows_witness :
    merge_met_dataframes [("temperature", "met")] [("met", c1DF)] = .ok c1Merged ∧
    c1Merged.index = [0, 1] ∧ c1Merged.index.length = 2 := by
  have hok : merge_met_dataframes [("temperature", "met")] [("met", c1DF)]
      = .ok c1Merged := rfl
  have hidx : ∀ p ∈ [("met", c1DF)], (p.2 : DF).index = [0, 1] := by
    intro p hp
    rw [List.mem_singleton] at hp
    subst hp; rfl
  have h := (merge_preserves_output_grid_rows [0, 1] [("temperature", "met")]
      [("met", c1DF)] (by simp) (by simp) hidx).1 c1Merged hok
  exact ⟨hok, h.1, h.2.1⟩

/-- A parameter request entry as used by the station strategy: the configured
source tag and the station column key. -/
structure MetParam where
  source : String
  key : String

/-- met_key (metstation.py line 19): the parameter-to-station-key mapping for
the parameters whose configured source is met. -/
def met_key_of (params : List (String × MetParam)) : List (String × String) :=
  (params.filter (fun p => p.2.source == "met")).map (fun p => (p.1, p.2.key))

/-- aggregation_methods (metstation.py lines 66-67), translated exactly: a
column aggregates with sum when the column name is among the met_key values
AND met_key.get(column) equals the string precipitation; otherwise mean.
Note met_key maps parameter name to station column key, so met_key.get(col)
looks the station COLUMN name up as a PARAMETER name. -/
def aggregation_methods (met_key : List (String × String)) (cols : List String) :
    List (String × String) :=
  cols.map (fun col =>
    (col, if col ∈ met_key.map Prod.snd ∧ List.lookup col met_key = some "precipitation"
      then "sum" else "mean"))

/-- Pandas aggregate over one resample window: sum of the window values for
the sum method, arithmetic mean for the mean method. -/
def aggregate_window (method : String) (vals : List ℚ) : ℚ :=
  if method = "sum" then vals.sum else vals.sum / vals.length

/-- build_metstation_df (metstation.py lines 37-57): a frame indexed by the
output grid; for every (parameter, key) in met_key whose key is a column of
the station table, the station values are selected at the grid timestamps
with .loc, which raises a KeyError when a grid timestamp is missing from the
station index; a parameter whose key is absent is silently skipped. -/
def buildStep (md : StationTable) (grid : List Int) (acc : DF)
    (pk : String × String) : Except String DF :=
  if pk.2 ∈ md.cols then
    if grid.all (fun t => t ∈ md.index) then
      .ok { acc with cols := acc.cols ++
        [(pk.1, fun t => if t ∈ grid then md.data pk.2 t else none)] }
    else .error "KeyError: DatetimeIndex mismatch"
  else .ok acc

def build_metstation_df (met_key : List (String × String)) (md : StationTable)
    (grid : List Int) : Except String DF :=
  met_key.foldlM (buildStep md grid) ({ index := grid, cols := [] } : DF)

/-- The negative-value floor (metstation.py line 28): rows of the
global_shortwave column with value below zero are set to exactly zero; NaN
compares false so NaN cells are untouched, and no other column is touched. -/
def clip_global_shortwave (df : DF) : DF :=
  { df with cols := df.cols.map (fun pc =>
      if pc.1 = "global_shortwave" then
        (pc.1, fun t => (pc.2 t).map (fun v => if v < 0 then 0 else v))
      else pc) }

/-- process_metstation_data (metstation.py lines 11-35).  When metdata is None
the function returns None at lines 15-17, BEFORE met_key is consulted, so the
ValueError raise of lines 31-32 is unreachable.  On the some branch the
fill_in_missing_metdata resample (whose pandas date arithmetic is external) is
modelled by the fillModel argument and applied exactly when an interpolation
method is configured; then the frame is built and the global_shortwave floor
is applied, a step that raises a KeyError when the column is absent. -/
def process_metstation_data (fillModel : StationTable → StationTable)
    (params : List (String × MetParam)) (metdata : Option StationTable)
    (grid : List Int) (metstation_freq : String) (interp_method : Option String) :
    Except String (Option DF) :=
  match metdata with
  | none => .ok none
  | some md =>
    let met_key := met_key_of params
    let md := match interp_method with
      | some _ => fillModel md
      | none => md
    match build_metstation_df met_key md grid with
    | .error e => .error e
    | .ok df =>
      if (List.lookup "global_shortwave" df.cols).isSome then
        .ok (some (clip_global_shortwave df))
      else .error "KeyError: global_shortwave"

/-- The default station key mapping (defaults.py default_met_keys), restricted
to the entries the C2 evaluation touches; precipitation maps to Precip_Tot. -/
def default_met_keys : List (String × String) :=
  [("pressure", "BP_mbar"), ("temperature", "AirT_2M"),
   ("relative_humidity", "RH_2M"), ("wind_speed", "Wind_Spd_2M"),
   ("wind_direction", "Wind_Dir_2M"), ("precipitation", "Precip_Tot"),
   ("global_shortwave", "PSP_Total"), ("diffuse_shortwave", "Diffuse"),
   ("direct_shortwave", "Direct"), ("downwelling_lwir", "PIR_Flux"),
   ("zenith", "ZenDeg"), ("azimuth", "AzDeg")]

/-- The 15-minute precipitation example of the spec, grouped into the four
hourly resample windows. -/
def c2Windows : List (List ℚ) :=
  [[1/10, 1/10, 1/10, 1/10], [2/10, 2/10, 2/10, 2/10],
   [0, 0, 0, 0], [4/10, 4/10, 4/10, 4/10]]

/-- C2 is a code bug: the aggregation dict comprehension asks
met_key.get(col) == "precipitation" where met_key maps parameter name to
station column key, so with the default keys the precipitation column
Precip_Tot aggregates with MEAN, not sum, and the 15-minute example yields
[0.1, 0.2, 0.0, 0.4] instead of the [0.4, 0.8, 0.0, 1.6] the spec requires;
the sum method the spec intends would yield the latter. -/
theorem precipitation_aggregation_uses_mean_bug :
    aggregation_methods default_met_keys ["Precip_Tot"] = [("Precip_Tot", "mean")] ∧
    c2Windows.map (aggregate_window "mean") = [1/10, 2/10, 0, 4/10] ∧
    c2Windows.map (aggregate_window "sum") = [4/10, 8/10, 0, 16/10] ∧
    (1/10 : ℚ) ≠ 4/10 := by
  refine ⟨by decide, ?_, ?_, by norm_num⟩
  · simp [c2Windows, aggregate_window]
    norm_num
  · simp [c2Windows, aggregate_window]
    norm_num

/-- C3 is a code bug: for EVERY parameter map, in particular one that requests
met-sourced parameters, calling the station strategy with no station table
returns None (the early return of metstation.py lines 15-17) instead of
raising the no-station-data ValueError of lines 31-32, which is unreachable. -/
theorem missing_station_data_returns_none_bug
    (fillModel : StationTable → StationTable) (params : List (String × MetParam))
    (grid : List Int) (freq : String) (interp : Option String) :
    process_metstation_data fillModel params none grid freq interp = .ok none := rfl

/-- The columns build_metstation_df assembles when every grid timestamp is
covered by the station index: one column per met_key entry whose station key
is present, valued from the station table at the grid timestamps. -/
def build_cols (met_key : List (String × String)) (md : StationTable)
    (grid : List Int) : List (String × (Int → Option ℚ)) :=
  met_key.filterMap (fun pk =>
    if pk.2 ∈ md.cols then
      some (pk.1, fun t => if t ∈ grid then md.data pk.2 t else none)
    else none)

/-- The frame build_metstation_df returns on success. -/
def build_metstation_pure (met_key : List (String × String)) (md : StationTable)
    (grid : List Int) : DF :=
  ⟨grid, build_cols met_key md grid⟩

lemma build_fold_ok (md : StationTable) (grid : List Int)
    (hidx : ∀ t ∈ grid, t ∈ md.index) :
    ∀ (met_key : List (String × String)) (acc : DF),
      met_key.foldlM (buildStep md grid) acc
        = .ok ⟨acc.index, acc.cols ++ build_cols met_key md grid⟩ := by
  have hall : grid.all (fun t => t ∈ md.index) = true := by
    simp only [List.all_eq_true, decide_eq_true_iff]
    exact hidx
  intro met_key
  induction met_key with
  | nil =>
    intro acc
    simp [List.foldlM_nil, build_cols, pure, Except.pure]
  | cons pk rest ih =>
    intro acc
    rw [List.foldlM_cons]
    by_cases hk : pk.2 ∈ md.cols
    · have hstep : buildStep md grid acc pk
          = .ok { acc with cols := acc.cols ++
              [(pk.1, fun t => if t ∈ grid then md.data pk.2 t else none)] } := by
        unfold buildStep
        rw [if_pos hk, if_pos hall]
      rw [hstep]
      simp only [Bind.bind, Except.bind]
      rw [ih]
      simp [build_cols, hk]
    · have hstep : buildStep md grid acc pk = .ok acc := by
        unfold buildStep
        rw [if_neg hk]
      rw [hstep]
      simp only [Bind.bind, Except.bind]
      rw [ih]
      simp [build_cols, hk]

lemma build_metstation_df_ok (met_key : List (String × String))
    (md : StationTable) (grid : List Int) (hidx : ∀ t ∈ grid, t ∈ md.index) :
    build_metstation_df met_key md grid
      = .ok (build_metstation_pure met_key md grid) := by
  unfold build_metstation_df build_metstation_pure
  rw [build_fold_ok md grid hidx met_key]
  simp

lemma lookup_build_cols (md : StationTable) (grid : List Int) :
    ∀ (met_key : List (String × String)) (c gkey : String),
      List.lookup c met_key = some gkey → gkey ∈ md.cols →
        List.lookup c (build_cols met_key md grid)
          = some (fun t => if t ∈ grid then md.data gkey t else none) := by
  intro met_key
  induction met_key with
  | nil => intro c gkey h; simp [List.lookup] at h
  | cons pk rest ih =>
    obtain ⟨k, v⟩ := pk
    intro c gkey h1 h2
    rw [List.lookup_cons] at h1
    by_cases hk : c = k
    · have hkb : (c == k) = true := by simp [hk]
      rw [hkb] at h1
      have hv : v = gkey := by simpa using h1
      subst hv
      unfold build_cols
      simp only [List.filterMap_cons, if_pos h2]
      rw [List.lookup_cons, hkb]
    · have hkb : (c == k) = false := by simp [hk]
      rw [hkb] at h1
      have hrec := ih c gkey h1 h2
      unfold build_cols
      simp only [List.filterMap_cons]
      unfold build_cols at hrec
      by_cases hcols : v ∈ md.cols
      · rw [if_pos hcols, List.lookup_cons, hkb]
        exact hrec
      · rw [if_neg hcols]
        exact hrec

lemma lookup_clip_cols (l : List (String × (Int → Option ℚ))) (c : String) :
    List.lookup c (l.map (fun pc =>
        if pc.1 = "global_shortwave" then
          (pc.1, fun t => (pc.2 t).map (fun v => if v < 0 then 0 else v))
        else pc))
      = if c = "global_shortwave" then
          (List.lookup c l).map
            (fun f => fun t => (f t).map (fun v => if v < 0 then 0 else v))
        else List.lookup c l := by
  induction l with
  | nil => split <;> simp
  | cons pc rest ih =>
    obtain ⟨k, f⟩ := pc
    simp only [List.map_cons]
    by_cases hgs : k = "global_shortwave"
    · simp only [if_pos hgs]
      by_cases hc : c = k
      · have hkb : (c == k) = true := by simp [hc]
        rw [List.lookup_cons, List.lookup_cons, hkb]
        rw [if_pos (hc.trans hgs)]
        simp
      · have hkb : (c == k) = false := by simp [hc]
        rw [List.lookup_cons, List.lookup_cons, hkb]
        simp only []
        rw [ih]
    · simp only [if_neg hgs]
      by_cases hc : c = k
      · have hkb : (c == k) = true := by simp [hc]
        rw [List.lookup_cons, List.lookup_cons, hkb]
        rw [if_neg (by rw [hc]; exact hgs)]
      · have hkb : (c == k) = false := by simp [hc]
        rw [List.lookup_cons, List.lookup_cons, hkb]
        rw [ih]

lemma clip_get_gs (df : DF) (t : Int) :
    (clip_global_shortwave df).get "global_shortwave" t
      = (df.get "global_shortwave" t).map (fun v => if v < 0 then 0 else v) := by
  unfold clip_global_shortwave DF.get
  simp only [lookup_clip_cols, if_pos rfl]
  cases List.lookup "global_shortwave" df.cols <;> simp

lemma clip_get_other (df : DF) (c : String) (hc : c ≠ "global_shortwave") (t : Int) :
    (clip_global_shortwave df).get c t = df.get c t := by
  unfold clip_global_shortwave DF.get
  simp only [lookup_clip_cols, if_neg hc]

/-- C7: for every station table containing the global-shortwave station
column (requested with the met source, every grid timestamp covered), the
station strategy succeeds and, in the resulting SourceTable, every
global_shortwave value is the station value floored at zero: values below
zero map to exactly zero, every present value is nonnegative, and the
clipping step leaves every other column unchanged. -/
theorem station_global_shortwave_clipped_nonnegative
    (fillModel : StationTable → StationTable)
    (params : List (String × MetParam)) (md : StationTable) (grid : List Int)
    (freq gkey : String)
    (h1 : List.lookup "global_shortwave" (met_key_of params) = some gkey)
    (h2 : gkey ∈ md.cols)
    (h3 : ∀ t ∈ grid, t ∈ md.index) :
    process_metstation_data fillModel params (some md) grid freq none
        = .ok (some (clip_global_shortwave
            (build_metstation_pure (met_key_of params) md grid))) ∧
    (∀ t ∈ grid,
      (clip_global_shortwave (build_metstation_pure (met_key_of params) md grid)).get
          "global_shortwave" t
        = (md.data gkey t).map (fun v => if v < 0 then 0 else v)) ∧
    (∀ t v,
      (clip_global_shortwave (build_metstation_pure (met_key_of params) md grid)).get
          "global_shortwave" t = some v → 0 ≤ v) ∧
    (∀ c, c ≠ "global_shortwave" → ∀ t,
      (clip_global_shortwave (build_metstation_pure (met_key_of params) md grid)).get c t
        = (build_metstation_pure (met_key_of params) md grid).get c t) := by
  have hlook := lookup_build_cols md grid (met_key_of params) "global_shortwave" gkey h1 h2
  have hget : ∀ t, (build_metstation_pure (met_key_of params) md grid).get
      "global_shortwave" t = if t ∈ grid then md.data gkey t else none := by
    intro t
    unfold build_metstation_pure DF.get
    rw [hlook]
  refine ⟨?_, ?_, ?_, ?_⟩
  · unfold process_metstation_data
    dsimp only
    rw [build_metstation_df_ok (met_key_of params) md grid h3]
    have hsome : (List.lookup "global_shortwave"
        (build_metstation_pure (met_key_of params) md grid).cols).isSome := by
      unfold build_metstation_pure
      rw [hlook]
      rfl
    simp only [hsome, if_true]
  · intro t ht
    rw [clip_get_gs, hget t, if_pos ht]
  · intro t v hv
    rw [clip_get_gs, hget t] at hv
    by_cases ht : t ∈ grid
    · rw [if_pos ht] at hv
      cases hmd : md.data gkey t with
      | none => rw [hmd] at hv; simp at hv
      | some u =>
        rw [hmd] at hv
        have hv' : (if u < 0 then (0 : ℚ) else u) = v := by simpa using hv
        subst hv'
        split
        · exact le_refl 0
        · exact not_lt.mp (by assumption)
    · rw [if_neg ht] at hv
      simp at hv
  · intro c hc t
    exact clip_get_other _ c hc t

/-- Concrete station table for the C7 witness: one timestamp, a PSP_Total
column reading -5.0. -/
def c7Md : StationTable :=
  ⟨[0], ["PSP_Total"], fun c _ => if c = "PSP_Total" then some (-5) else none⟩

/-- Concrete parameter map for the C7 witness. -/
def c7Params : List (String × MetParam) :=
  [("global_shortwave", ⟨"met", "PSP_Total"⟩)]

/-- Witness for C7: a station global-shortwave reading of -5.0 is written to
the station SourceTable as exactly 0.0. -/
theorem station_global_shortwave_clipped_nonnegative_witness :
    (clip_global_shortwave (build_metstation_pure (met_key_of c7Params) c7Md [0])).get
        "global_shortwave" 0 = some 0 ∧
    process_metstation_data id c7Params (some c7Md) [0] "15T" none
        = .ok (some (clip_global_shortwave
            (build_metstation_pure (met_key_of c7Params) c7Md [0]))) := by
  have h := station_global_shortwave_clipped_nonnegative id c7Params c7Md [0]
      "15T" "PSP_Total" (by decide) (by decide) (by decide)
  constructor
  · have h2 := h.2.1 0 (by decide)
    rw [h2]
    norm_num [c7Md]
  · exact h.1

/-- check_for_missing_dates (util.py lines 8-15): the Python set difference
list(set(date_range) - set(metdata.index)) in an unspecified element order,
modelled as a filter over the deduplicated grid and reasoned about set-wise. -/
def check_for_missing_dates (mdIndex : List Int) (date_range : List Int) : List Int :=
  date_range.dedup.filter (fun t => decide (t ∉ mdIndex))

/-- get_grib_dates (grib.py lines 57-76): full grid when any parameter has the
grib source; otherwise, with a station table, the station-missing timestamps
when no interpolation method is configured AND pull_grib is set; otherwise,
without a station table, the full grid when pull_grib is set; otherwise
nothing. -/
def get_grib_dates (metdata : Option (List Int)) (parameters : List (String × String))
    (date_range : List Int) (interp_method : Option String) (pull_grib : Bool) :
    List Int :=
  let any_grib := parameters.any (fun p => p.2 == "grib")
  if any_grib then date_range
  else
    match metdata with
    | some idx =>
      if interp_method = none ∧ pull_grib then check_for_missing_dates idx date_range
      else []
    | none => if pull_grib then date_range else []

lemma mem_check_for_missing_dates (mdIndex date_range : List Int) (t : Int) :
    t ∈ check_for_missing_dates mdIndex date_range
      ↔ t ∈ date_range ∧ t ∉ mdIndex := by
  unfold check_for_missing_dates
  rw [List.mem_filter]
  simp [List.mem_dedup]

/-- Counterexample to C4 as stated: with a station table missing timestamp 1
from a 2-step grid, no interpolation method and no grib parameter, but with
archive retrieval NOT permitted (pull_grib false), get_grib_dates returns the
empty list although the grid-minus-station set contains timestamp 1. -/
theorem grib_gapfill_needs_pull_grib_counterexample :
    get_grib_dates (some [0]) [("temperature", "met")] [0, 1] none false = [] ∧
    (1 : Int) ∈ ([0, 1] : List Int) ∧ (1 : Int) ∉ ([0] : List Int) := by
  refine ⟨by decide, by decide, by decide⟩

/-- C4 amended: (a) if any requested parameter has the grib source, the full
OutputGrid is returned; (b) otherwise, if a station table is present, no
interpolation method is configured AND archive retrieval is permitted
(pull_grib), exactly the timestamps in the grid but absent from the station
index are returned. -/
theorem grib_date_selection_amended
    (metdata : Option (List Int)) (parameters : List (String × String))
    (date_range : List Int) (interp_method : Option String) (pull_grib : Bool) :
    (parameters.any (fun p => p.2 == "grib") = true →
      get_grib_dates metdata parameters date_range interp_method pull_grib
        = date_range) ∧
    (∀ idx, metdata = some idx →
      parameters.any (fun p => p.2 == "grib") = false →
      interp_method = none → pull_grib = true →
      ∀ t, t ∈ get_grib_dates metdata parameters date_range interp_method pull_grib
        ↔ (t ∈ date_range ∧ t ∉ idx)) := by
  constructor
  · intro h
    unfold get_grib_dates
    simp [h]
  · intro idx hmd hng hint hpg t
    subst hmd
    subst hint
    subst hpg
    unfold get_grib_dates
    simp only [hng, Bool.false_eq_true, if_false]
    simp only [and_true, if_pos rfl]
    exact mem_check_for_missing_dates idx date_range t

/-- The hourly 25-timestamp grid of the C4 example. -/
def c4Grid : List Int :=
  [0, 1, 2, 3, 4, 5, 6, 7, 8, 9, 10, 11, 12, 13, 14, 15, 16, 17, 18, 19, 20,
   21, 22, 23, 24]

/-- Station coverage of all but hours 12, 13 and 14. -/
def c4Station : List Int :=
  [0, 1, 2, 3, 4, 5, 6, 7, 8, 9, 10, 11, 15, 16, 17, 18, 19, 20, 21, 22, 23, 24]

/-- Witness for the amended C4: on the 25-hour grid with station coverage of
all but hours 12-14, exactly those three timestamps are selected. -/
theorem grib_date_selection_amended_witness :
    (12 : Int) ∈ get_grib_dates (some c4Station) [("temperature", "met")] c4Grid
        none true ∧
    (13 : Int) ∈ get_grib_dates (some c4Station) [("temperature", "met")] c4Grid
        none true ∧
    (14 : Int) ∈ get_grib_dates (some c4Station) [("temperature", "met")] c4Grid
        none true ∧
    (11 : Int) ∉ get_grib_dates (some c4Station) [("temperature", "met")] c4Grid
        none true := by
  have h := (grib_date_selection_amended (some c4Station) [("temperature", "met")]
      c4Grid none true).2 c4Station rfl (by decide) rfl rfl
  refine ⟨(h 12).mpr (by decide), (h 13).mpr (by decide), (h 14).mpr (by decide), ?_⟩
  intro hmem
  exact ((h 11).mp hmem).2 (by decide)

/-- np.arctan2 on reals (signed zeros do not exist on ℝ): the angle of the
point (x, y) in (-pi, pi], via arctan with quadrant corrections. -/
noncomputable def arctan2 (y x : ℝ) : ℝ :=
  if 0 < x then Real.arctan (y / x)
  else if x < 0 then
    (if 0 ≤ y then Real.arctan (y / x) + Real.pi else Real.arctan (y / x) - Real.pi)
  else
    (if 0 < y then Real.pi / 2 else if y < 0 then -(Real.pi / 2) else 0)

/-- np.degrees: radians to degrees. -/
noncomputable def np_degrees (r : ℝ) : ℝ := r * (180 / Real.pi)

/-- The final normalization of get_wind_direction: a negative angle is
shifted by +360 degrees. -/
noncomputable def wrap_direction (wd : ℝ) : ℝ := if wd < 0 then wd + 360 else wd

/-- get_wind_direction (grib.py lines 133-147), on the two extracted wind
components: zero when both components are exactly zero, the degree-valued
arctan2 of (zonal, meridional) when the zonal component is nonzero, and
sign(meridional) * 90 degrees otherwise, with negative results shifted
by +360. -/
noncomputable def get_wind_direction (zonal meridional : ℝ) : ℝ :=
  if zonal = 0 ∧ meridional = 0 then 0
  else
    wrap_direction
      (if zonal ≠ 0 then np_degrees (arctan2 zonal meridional)
       else np_degrees (Real.pi / 2 * (meridional / |meridional|)))

lemma arctan2_mem_Ioc (y x : ℝ) :
    -Real.pi < arctan2 y x ∧ arctan2 y x ≤ Real.pi := by
  have hpi := Real.pi_pos
  have ha1 := Real.arctan_lt_pi_div_two (y / x)
  have ha2 := Real.neg_pi_div_two_lt_arctan (y / x)
  unfold arctan2
  split_ifs with h1 h2 h3 h4 h5
  · constructor <;> linarith
  · have hyx : y / x ≤ 0 := div_nonpos_iff.mpr (Or.inl ⟨h3, h2.le⟩)
    have : Real.arctan (y / x) ≤ 0 := by
      have := Real.arctan_strictMono.monotone hyx
      rwa [Real.arctan_zero] at this
    constructor <;> linarith
  · have hy : y < 0 := lt_of_not_ge h3
    have hyx : 0 < y / x := div_pos_of_neg_of_neg hy h2
    have : 0 < Real.arctan (y / x) := by
      have := Real.arctan_strictMono hyx
      rwa [Real.arctan_zero] at this
    constructor <;> linarith
  · constructor <;> linarith
  · constructor <;> linarith
  · constructor <;> linarith

lemma np_degrees_bounds {a : ℝ} (h1 : -Real.pi < a) (h2 : a ≤ Real.pi) :
    -180 < np_degrees a ∧ np_degrees a ≤ 180 := by
  have hpi := Real.pi_pos
  have hc : (0 : ℝ) < 180 / Real.pi := by positivity
  unfold np_degrees
  constructor
  · have := mul_lt_mul_of_pos_right h1 hc
    have he : -Real.pi * (180 / Real.pi) = -180 := by
      field_simp
      ring
    linarith [he ▸ this]
  · have := mul_le_mul_of_nonneg_right h2 hc.le
    have he : Real.pi * (180 / Real.pi) = 180 := by
      field_simp
    linarith [he ▸ this]

lemma wrap_direction_mem {wd : ℝ} (h1 : -180 < wd) (h2 : wd ≤ 180) :
    0 ≤ wrap_direction wd ∧ wrap_direction wd < 360 := by
  unfold wrap_direction
  split_ifs with hlt
  · constructor <;> linarith
  · have := not_lt.mp hlt
    constructor <;> linarith

/-- C8: get_wind_direction returns exactly 0 when both components are zero,
and otherwise a value in the half-open interval [0, 360), obtained from the
arctan2-style combination of the components with negative angles shifted by
+360 degrees. -/
theorem wind_direction_zero_case_and_range (zonal meridional : ℝ) :
    ((zonal = 0 ∧ meridional = 0) → get_wind_direction zonal meridional = 0) ∧
    (¬ (zonal = 0 ∧ meridional = 0) →
      0 ≤ get_wind_direction zonal meridional ∧
      get_wind_direction zonal meridional < 360) := by
  constructor
  · intro h
    unfold get_wind_direction
    rw [if_pos h]
  · intro h
    unfold get_wind_direction
    rw [if_neg h]
    by_cases hz : zonal ≠ 0
    · rw [if_pos hz]
      have hb := arctan2_mem_Ioc zonal meridional
      have hd := np_degrees_bounds hb.1 hb.2
      exact wrap_direction_mem hd.1 hd.2
    · rw [if_neg hz]
      push_neg at hz
      have hm : meridional ≠ 0 := fun hm0 => h ⟨hz, hm0⟩
      rcases lt_or_gt_of_ne hm with hneg | hpos
      · have hsign : meridional / |meridional| = -1 := by
          rw [abs_of_neg hneg, div_neg, div_self hm]
        rw [hsign]
        have h90 : np_degrees (Real.pi / 2 * (-1)) = -90 := by
          unfold np_degrees
          field_simp
          ring
        rw [h90]
        exact wrap_direction_mem (by norm_num) (by norm_num)
      · have hsign : meridional / |meridional| = 1 := by
          rw [abs_of_pos hpos, div_self hm]
        rw [hsign]
        have h90 : np_degrees (Real.pi / 2 * 1) = 90 := by
          unfold np_degrees
          field_simp
          ring
        rw [h90]
        exact wrap_direction_mem (by norm_num) (by norm_num)

/-- Witness for C8 at concrete wind components. -/
theorem wind_direction_zero_case_and_range_witness :
    get_wind_direction 0 0 = 0 ∧
    (0 ≤ get_wind_direction 1 1 ∧ get_wind_direction 1 1 < 360) := by
  refine ⟨(wind_direction_zero_case_and_range 0 0).1 ⟨rfl, rfl⟩, ?_⟩
  exact (wind_direction_zero_case_and_range 1 1).2 (by simp)

/-- np.radians: degrees to radians. -/
noncomputable def radians (deg : ℝ) : ℝ := deg * (Real.pi / 180)

/-- A real-valued frame for the derived-data strategy: the derived columns are
computed from already-resolved real-valued series. -/
structure RDF where
  index : List Int
  cols : List (String × (Int → ℝ))

/-- process_global_fraction (derived_data.py lines 9-10). -/
noncomputable def process_global_fraction (global_shortwave : Int → ℝ)
    (fraction : ℝ) : Int → ℝ :=
  fun t => global_shortwave t * fraction

/-- process_coszenith (derived_data.py lines 13-16): the cosine-zenith
partition of global shortwave into the direct and diffuse components. -/
noncomputable def process_coszenith (global_shortwave zenith : Int → ℝ)
    (fraction : ℝ) : (Int → ℝ) × (Int → ℝ) :=
  (fun t => global_shortwave t * fraction * Real.cos (radians (zenith t)),
   fun t => global_shortwave t
     - global_shortwave t * fraction * Real.cos (radians (zenith t)))

/-- C5: for every global-shortwave series, zenith series and fraction, the
cosine-zenith partition satisfies direct + diffuse = global_shortwave at every
row (exactly, in real arithmetic), with
direct = global_shortwave * fraction * cos(radians(zenith)). -/
theorem coszenith_partition_sums_to_global (g z : Int → ℝ) (f : ℝ) (t : Int) :
    (process_coszenith g z f).1 t + (process_coszenith g z f).2 t = g t ∧
    (process_coszenith g z f).1 t = g t * f * Real.cos (radians (z t)) := by
  unfold process_coszenith
  exact ⟨by ring, rfl⟩

/-- calculate_dlr_brunt (derived_data.py lines 128-150): downwelling longwave
radiation via the Brunt equation. -/
noncomputable def calculate_dlr_brunt (temp_celsius relative_humidity : ℝ) : ℝ :=
  let stefan_boltzmann_constant : ℝ := 5.67e-8
  let temp_kelvin := temp_celsius + 273.15
  let saturation_vapor_pressure :=
    6.11 * Real.exp (5420 * (1 / 273.15 - 1 / temp_kelvin))
  let vapor_pressure := saturation_vapor_pressure * relative_humidity / 100
  let emissivity := 0.785 - 0.00246 * temp_kelvin + 0.0000129 * temp_kelvin ^ 2
  let effective_emissivity := emissivity + 0.0224 * Real.sqrt vapor_pressure
  effective_emissivity * stefan_boltzmann_constant * temp_kelvin ^ 4

/-- The Brunt flux exactly as the spec words it, written as one expression:
eps_eff * sigma * Tk^4 with Tk = T + 273.15,
es = 6.11*exp(5420*(1/273.15 - 1/Tk)), e = es*RH/100,
eps = 0.785 - 0.00246*Tk + 0.0000129*Tk^2, eps_eff = eps + 0.0224*sqrt(e),
sigma = 5.67e-8.  Used as the refinement reference for C9. -/
noncomputable def brunt_spec_formula (T RH : ℝ) : ℝ :=
  (0.785 - 0.00246 * (T + 273.15) + 0.0000129 * (T + 273.15) ^ 2
      + 0.0224 * Real.sqrt
          (6.11 * Real.exp (5420 * (1 / 273.15 - 1 / (T + 273.15))) * RH / 100))
    * 5.67e-8 * (T + 273.15) ^ 4

/-- C9: calculate_dlr_brunt returns exactly the flux the spec prescribes, for
every temperature in Celsius and relative humidity in percent. -/
theorem brunt_matches_spec_formula (T RH : ℝ) :
    calculate_dlr_brunt T RH = brunt_spec_formula T RH := rfl

/-- A parameter request entry as the derived (global) strategy reads it: the
configured source string and the optional explicit fraction field. -/
structure GlobalParam where
  source : String
  fraction : Option ℝ := none

/-- The percentage parse of derived_data.py line 37:
float(source.split('_')[1][:-1]) / 100.0.  The index access raises IndexError
when the source has no underscore part and float() raises ValueError on a
non-numeric piece; both are modelled as none.  The numeric parse models the
natural-number percent literals of the configs (for example global_80%). -/
def parse_percent_fraction (source : String) : Option ℚ :=
  match (source.splitOn "_").get? 1 with
  | none => none
  | some piece =>
    match (piece.dropRight 1).toNat? with
    | none => none
    | some n => some ((n : ℚ) / 100)

/-- process_global_data (derived_data.py lines 19-58).  The parameters whose
source starts with global are processed in order: a percent source takes a
parsed fixed fraction; a source containing fraction takes the explicit
fraction field; a source containing coszenith computes BOTH partition columns
when the parameter is direct_shortwave, does nothing when it is
diffuse_shortwave (the pass branch of line 48, commented taken care of by
direct_shortwave), and raises ValueError otherwise; any other source raises
ValueError.  The frame is indexed by the output grid.  The in-place
resolved-source bookkeeping (line 53, parameters[p][source] := global) only
feeds the header writer and is not part of the returned frame. -/
noncomputable def process_global_data (params : List (String × GlobalParam))
    (grid : List Int) (dataframes : List (String × RDF)) :
    Except String (Option RDF) :=
  let gparams := params.filter (fun p => decide ("global".data <+: p.2.source.data))
  if gparams.isEmpty then .ok none
  else
    match List.lookup "global_shortwave" params with
    | none => .error "KeyError: global_shortwave"
    | some gcfg =>
      match List.lookup gcfg.source dataframes with
      | none => .error ("KeyError: " ++ gcfg.source)
      | some gdf =>
        match List.lookup "global_shortwave" gdf.cols with
        | none => .error "KeyError: global_shortwave column"
        | some global_shortwave =>
          match gparams.foldlM (fun acc pc =>
            let source := pc.2.source
            if decide ('%' ∈ source.data) then
              match parse_percent_fraction source with
              | none => Except.error "ValueError: float"
              | some fraction =>
                Except.ok (acc ++
                  [(pc.1, process_global_fraction global_shortwave (fraction : ℝ))])
            else if decide ("fraction".data <:+: source.data) then
              match pc.2.fraction with
              | none => Except.error "KeyError: fraction"
              | some fraction =>
                Except.ok (acc ++
                  [(pc.1, process_global_fraction global_shortwave fraction)])
            else if decide ("coszenith".data <:+: source.data) then
              if pc.1 = "direct_shortwave" then
                match List.lookup "zenith" params with
                | none => Except.error "KeyError: zenith"
                | some zcfg =>
                  match List.lookup zcfg.source dataframes with
                  | none => Except.error ("KeyError: " ++ zcfg.source)
                  | some zdf =>
                    match List.lookup "zenith" zdf.cols with
                    | none => Except.error "KeyError: zenith column"
                    | some zenith =>
                      match pc.2.fraction with
                      | none => Except.error "KeyError: fraction"
                      | some fraction =>
                        Except.ok (acc ++
                          [("direct_shortwave",
                              (process_coszenith global_shortwave zenith fraction).1),
                           ("diffuse_shortwave",
                              (process_coszenith global_shortwave zenith fraction).2)])
              else if pc.1 = "diffuse_shortwave" then
                Except.ok acc
              else Except.error ("ValueError: unknown parameter " ++ pc.1)
            else Except.error ("ValueError: unknown source " ++ source))
            ([] : List (String × (Int → ℝ))) with
          | .error e => .error e
          | .ok cols => .ok (some ⟨grid, cols⟩)

/-- Concrete parameter map for C6: only diffuse_shortwave carries the
cosine-zenith source. -/
noncomputable def c6Params : List (String × GlobalParam) :=
  [("global_shortwave", ⟨"grib", none⟩), ("zenith", ⟨"pvlib", none⟩),
   ("diffuse_shortwave", ⟨"global_coszenith", some (1 / 2)⟩)]

/-- Concrete upstream dataframes for C6. -/
noncomputable def c6Dfs : List (String × RDF) :=
  [("grib", ⟨[0], [("global_shortwave", fun _ => 100)]⟩),
   ("pvlib", ⟨[0], [("zenith", fun _ => 60)]⟩)]

/-- C6 is a code bug: requesting only the diffuse half of the cosine-zenith
partition makes the derived strategy return successfully with a frame that
has NO columns at all (the pass branch silently skips the requested
parameter), instead of raising a configuration error naming the dangling
direct_shortwave partner. -/
theorem dangling_diffuse_partner_silently_skipped :
    (process_global_data c6Params [0] c6Dfs).map
        (Option.map (fun df => df.cols.map Prod.fst)) = Except.ok (some []) := by
  rfl

/-- Left justification f-string padding: pad with spaces on the right to the
given width, unchanged when the string is already at least that long. -/
def ljust (s : String) (w : Nat) : String :=
  s ++ String.mk (List.replicate (w - s.length) ' ')

/-- The computed column width of write_met_data (output.py lines 45-51): the
maximum formatted item length of the column plus one, or the default
configured width when that is larger.  The float formatting that produces the
item lengths is external; fmtMaxLen reports the per-column maximum. -/
def computed_width (fmtMaxLen defaultWidth : String → Nat) (c : String) : Nat :=
  max (fmtMaxLen c + 1) (defaultWidth c)

/-- The resolved-sources metadata line of write_met_data (output.py lines
64-73): iterate the frame columns in order; the day column writes the comment
marker prefix, the hour and minute columns are skipped by continue, and every
other column writes parameters.get(col, empty).get(source, dash)
left-justified to the computed column width. -/
def write_sources_line (cols : List String) (src : String → Option String)
    (width : String → Nat) : String :=
  match cols with
  | [] => ""
  | c :: rest =>
    (if c = "day" then "# Sources - "
     else if c = "hour" ∨ c = "minute" then ""
     else ljust ((src c).getD "-") (width c))
      ++ write_sources_line rest src width

lemma string_join_cons (s : String) (l : List String) :
    String.join (s :: l) = s ++ String.join l := by
  apply String.ext
  simp [String.data_join]

lemma ljust_length (s : String) (w : Nat) :
    (ljust s w).length = max s.length w := by
  unfold ljust
  simp [String.length_append]
  omega

lemma ljust_data_prefix (s : String) (w : Nat) :
    s.data <+: (ljust s w).data := by
  unfold ljust
  simp

/-- C10: the resolved-sources line consists, column for column, of the
comment-marker prefix for the day column, no entry at all for the hour and
minute columns, and for every other column its resolved source (dash when
the parameter has no recorded source) left-justified to that column's
computed width; each padded entry starts with the source text and has length
equal to the computed width (or the source length when longer). -/
theorem sources_line_layout (cols : List String) (src : String → Option String)
    (fmtMaxLen defaultWidth : String → Nat) :
    (write_sources_line cols src (computed_width fmtMaxLen defaultWidth)
      = String.join (cols.map (fun c =>
          if c = "day" then "# Sources - "
          else if c = "hour" ∨ c = "minute" then ""
          else ljust ((src c).getD "-")
            (computed_width fmtMaxLen defaultWidth c)))) ∧
    (∀ c, (ljust ((src c).getD "-") (computed_width fmtMaxLen defaultWidth c)).length
        = max ((src c).getD "-").length (computed_width fmtMaxLen defaultWidth c) ∧
      ((src c).getD "-").data
        <+: (ljust ((src c).getD "-") (computed_width fmtMaxLen defaultWidth c)).data) := by
  constructor
  · induction cols with
    | nil => rfl
    | cons c rest ih =>
      rw [List.map_cons, string_join_cons]
      unfold write_sources_line
      rw [ih]
  · intro c
    exact ⟨ljust_length _ _, ljust_data_prefix _ _⟩
